import Mathlib

/-!
Shallow embedding of `src/server/src/controllers/perkController.js`.

The controller validates perk payloads with a Joi schema, performs CRUD
operations against a Mongo-backed `Perk` collection, and post-processes the
public listing by resolving the polymorphic `createdBy` reference against the
`User` collection.  JSON payload values that matter to the schema are strings
and numbers, modelled by `JValue` (numbers as `Int`: every numeric literal the
claims exercise is an integer).  Absent object keys are modelled as `none`.
-/

namespace PerkController

/-- Character-list implementation of JS `String.prototype.includes` for a
single character (`key.includes('@')`). -/
def strHasChar (s : String) (c : Char) : Bool :=
  s.toList.contains c

/-- Character-list implementation of JS `toLowerCase()` (the inputs involved
are basic-latin). -/
def lowerStr (s : String) : String :=
  ⟨s.toList.map Char.toLower⟩

/-- Character-list implementation of JS `trim()`. -/
def trimStr (s : String) : String :=
  ⟨((s.toList.dropWhile Char.isWhitespace).reverse.dropWhile Char.isWhitespace).reverse⟩

/-- Decidable equality for the validator's result type, so that concrete
validation outcomes can be checked by evaluation. -/
instance {ε α : Type} [DecidableEq ε] [DecidableEq α] : DecidableEq (Except ε α) :=
  fun a b =>
    match a, b with
    | .ok x, .ok y =>
        if h : x = y then isTrue (by rw [h]) else isFalse (by intro hc; cases hc; exact h rfl)
    | .error x, .error y =>
        if h : x = y then isTrue (by rw [h]) else isFalse (by intro hc; cases hc; exact h rfl)
    | .ok _, .error _ => isFalse (by intro hc; cases hc)
    | .error _, .ok _ => isFalse (by intro hc; cases hc)

/-- A JSON value as far as the perk schema distinguishes them. -/
inductive JValue where
  | jstr (s : String)
  | jnum (n : Int)
deriving DecidableEq, Repr

/-- A request body for create/update.  Each field is `none` when the key is
absent.  `createdBy` is not declared in the Joi schema (the schema forbids the
misspelt key `ccreatedBy` instead), so `createdBy` is an *unknown* key for the
validator; both are carried here so that unknown-key handling and the
`Joi.forbidden()` rule can be modelled.  (`_id`, `createdAt`, `__v` — present in
the merged document during update — are likewise unknown keys that update mode
strips silently; they are omitted because no claim distinguishes them.) -/
structure Payload where
  title : Option JValue := none
  description : Option JValue := none
  category : Option JValue := none
  discountPercent : Option JValue := none
  merchant : Option JValue := none
  createdBy : Option JValue := none
  ccreatedBy : Option JValue := none
deriving DecidableEq, Repr

/-- Which schema field a validation error is reported against. -/
inductive FieldError where
  | title
  | description
  | category
  | discountPercent
  | merchant
  | ccreatedBy
  | createdBy
deriving DecidableEq, Repr

/-- Joi options the controller uses: `createPerk` validates with the defaults
(`abortEarly = true`, `stripUnknown = false`); `updatePerk` passes
`{ abortEarly: false, stripUnknown: true, convert: true }`. -/
structure JoiOpts where
  abortEarly : Bool
  stripUnknown : Bool
deriving DecidableEq, Repr

def createOpts : JoiOpts := { abortEarly := true, stripUnknown := false }

def updateOpts : JoiOpts := { abortEarly := false, stripUnknown := true }

/-- The normalized value produced by a successful validation: defaults applied
(`category := "other"`, `discountPercent := 0`), optional keys kept optional. -/
structure PerkValue where
  title : String
  description : Option String
  category : String
  discountPercent : Int
  merchant : Option String
deriving DecidableEq, Repr

/-- Joi `convert: true` (also the default) parses numeric strings for
`Joi.number()`; integer payloads are what the claims exercise. -/
def numVal : JValue → Option Int
  | .jnum n => some n
  | .jstr s => s.toInt?

/-- Rule `title: Joi.string().min(2).required()`. -/
def checkTitle (p : Payload) : Option FieldError :=
  match p.title with
  | none => some .title
  | some (.jstr s) => if s.length < 2 then some .title else none
  | some (.jnum _) => some .title

/-- Rule `description: Joi.string().allow('')`. -/
def checkDescription (p : Payload) : Option FieldError :=
  match p.description with
  | none => none
  | some (.jstr _) => none
  | some (.jnum _) => some .description

/-- Rule `category: Joi.string().valid('food','tech','travel','fitness','other').default('other')`. -/
def checkCategory (p : Payload) : Option FieldError :=
  match p.category with
  | none => none
  | some (.jstr s) =>
      if s == "food" || s == "tech" || s == "travel" || s == "fitness" || s == "other"
      then none else some .category
  | some (.jnum _) => some .category

/-- Rule `discountPercent: Joi.number().min(0).max(100).default(0)`.  Joi `min`/`max`
on numbers *reject* out-of-range values; they do not clamp. -/
def checkDiscount (p : Payload) : Option FieldError :=
  match p.discountPercent with
  | none => none
  | some jv =>
      match numVal jv with
      | none => some .discountPercent
      | some n => if n < 0 || 100 < n then some .discountPercent else none

/-- Rule `merchant: Joi.string().allow('')`. -/
def checkMerchant (p : Payload) : Option FieldError :=
  match p.merchant with
  | none => none
  | some (.jstr _) => none
  | some (.jnum _) => some .merchant

/-- Rule `ccreatedBy: Joi.forbidden()` — note the schema misspells the owner field;
the key it forbids is `ccreatedBy`, not `createdBy`. -/
def checkCcreatedBy (p : Payload) : Option FieldError :=
  if p.ccreatedBy.isSome then some .ccreatedBy else none

/-- Key `createdBy` is unknown to the schema: with Joi defaults an unknown key is
an error; with `stripUnknown: true` it is silently dropped. -/
def checkUnknown (opts : JoiOpts) (p : Payload) : Option FieldError :=
  if !opts.stripUnknown && p.createdBy.isSome then some .createdBy else none

/-- All violations, in Joi's reporting order (schema keys first, unknown keys
last). -/
def collectErrors (opts : JoiOpts) (p : Payload) : List FieldError :=
  (checkTitle p).toList ++ (checkDescription p).toList ++ (checkCategory p).toList ++
    (checkDiscount p).toList ++ (checkMerchant p).toList ++ (checkCcreatedBy p).toList ++
    (checkUnknown opts p).toList

/-- The normalized output value (meaningful only when `collectErrors` is empty;
total by giving junk on the error branches). -/
def mkValue (p : Payload) : PerkValue :=
  { title := match p.title with | some (.jstr s) => s | _ => ""
    description := match p.description with | some (.jstr s) => some s | _ => none
    category := match p.category with | some (.jstr s) => s | _ => "other"
    discountPercent := match p.discountPercent with
      | some jv => (numVal jv).getD 0
      | none => 0
    merchant := match p.merchant with | some (.jstr s) => some s | _ => none }

/-- Validation entry point `perkSchema.validate(data, opts)`: `error` is absent iff no rule is
violated; with `abortEarly` only the first violation is reported, otherwise all
of them. -/
def perkSchemaValidate (opts : JoiOpts) (p : Payload) :
    Except (List FieldError) PerkValue :=
  match collectErrors opts p with
  | [] => .ok (mkValue p)
  | e :: rest => .error (if opts.abortEarly then [e] else e :: rest)

/-- A perk document as stored in the `Perk` collection.  `createdBy` is a raw
string when present: either a stringified ObjectId or a legacy free-text key
(the data-layer invariant is intentionally not enforced). -/
structure StoredPerk where
  id : String
  title : String
  description : Option String := none
  category : String := "other"
  discountPercent : Int := 0
  merchant : Option String := none
  createdBy : Option String := none
  createdAt : Nat := 0
deriving DecidableEq, Repr

/-- A document in the `User` collection (as projected by `select('name email')`;
`email` may be absent on a given user). -/
structure User where
  uid : String
  name : String
  email : Option String := none
deriving DecidableEq, Repr

/-- Modelled from the spec: the document-store driver (an external
collaborator).  `mongoose.Types.ObjectId.isValid` accepts 24-character hex
strings and any 12-character string; every other string fails the cast. -/
def isHexChar (c : Char) : Bool :=
  c.isDigit || ('a' ≤ c && c ≤ 'f') || ('A' ≤ c && c ≤ 'F')

def isValidObjectId (s : String) : Bool :=
  (s.length == 24 && s.toList.all isHexChar) || s.length == 12

/-- A store-level failure: the driver's cast error on a malformed id, or a
database error carrying an `err.code` (duplicate key = 11000). -/
inductive StoreErr where
  | castError
  | dbErr (code : Option Int)
deriving DecidableEq, Repr

def errCode : StoreErr → Option Int
  | .castError => none
  | .dbErr c => c

/-- Modelled from the spec: `Perk.findById` — casts the id (raising a cast
error on a syntactically invalid ObjectId), then returns the matching document
or nothing. -/
def findById (store : List StoredPerk) (pid : String) :
    Except StoreErr (Option StoredPerk) :=
  if isValidObjectId pid then .ok (store.find? (fun q => q.id == pid))
  else .error .castError

/-- What a handler sends back: a `res.status(...).json({message})`, a JSON
payload, or `next(err)` to the generic error handler. -/
inductive HResp where
  | badRequest (errs : List FieldError)
  | statusMsg (code : Nat) (msg : String)
  | okPerk (p : StoredPerk)
  | okPerks (ps : List StoredPerk)
  | createdPerk (p : StoredPerk)
  | okDelete
  | nextErr (e : StoreErr)
deriving DecidableEq, Repr

/-- Query modifier `.sort({ createdAt: -1 })`: newest first (stable insertion sort). -/
def insertDesc (p : StoredPerk) : List StoredPerk → List StoredPerk
  | [] => [p]
  | q :: qs => if q.createdAt < p.createdAt then p :: q :: qs else q :: insertDesc p qs

def sortByCreatedAtDesc (l : List StoredPerk) : List StoredPerk :=
  l.foldr insertDesc []

/-- Handler `filterPerks`: requires the `title` query parameter (JS truthiness: absent
and empty string both fail the `if (title)` guard), then an exact-title
`Perk.find` sorted newest first. -/
def filterPerks (store : List StoredPerk) (title : Option String) : HResp :=
  match title with
  | some t =>
      if t == "" then .statusMsg 400 "Title query parameter is required"
      else .okPerks (sortByCreatedAtDesc (store.filter (fun p => p.title == t)))
  | none => .statusMsg 400 "Title query parameter is required"

/-- The document handed to `Perk.create`: the validated value spread first,
then `createdBy` forcibly set to the authenticated caller. -/
structure PerkDoc where
  title : String
  description : Option String
  category : String
  discountPercent : Int
  merchant : Option String
  createdBy : String
deriving DecidableEq, Repr

def mkDoc (caller : String) (v : PerkValue) : PerkDoc :=
  { title := v.title, description := v.description, category := v.category,
    discountPercent := v.discountPercent, merchant := v.merchant,
    createdBy := caller }

/-- Handler `createPerk`: validate with Joi defaults, 400 on error; insert with the
owner forced to the caller; translate `err.code === 11000` to 409; pass any
other store error to `next`.  The store insert is abstracted as `create`. -/
def createPerk (caller : String) (body : Payload)
    (create : PerkDoc → Except StoreErr StoredPerk) : HResp :=
  match perkSchemaValidate createOpts body with
  | .error errs => .badRequest errs
  | .ok v =>
      match create (mkDoc caller v) with
      | .ok doc => .createdPerk doc
      | .error e =>
          if errCode e == some 11000 then
            .statusMsg 409 "Duplicate perk for this merchant"
          else .nextErr e

/-- The object `existingPerk.toObject()` restricted to the schema-relevant keys (the
remaining keys — `_id`, `createdAt`, `__v` — are unknown to the schema and are
silently stripped by update-mode validation). -/
def toPayload (p : StoredPerk) : Payload :=
  { title := some (.jstr p.title)
    description := p.description.map .jstr
    category := some (.jstr p.category)
    discountPercent := some (.jnum p.discountPercent)
    merchant := p.merchant.map .jstr
    createdBy := p.createdBy.map .jstr
    ccreatedBy := none }

/-- JS object-spread override for one key: the body key wins when present. -/
def mergeField : Option JValue → Option JValue → Option JValue
  | some b, _ => some b
  | none, a => a

/-- The merge `{ ...existingPerk.toObject(), ...req.body }`: body keys override. -/
def mergePayload (base body : Payload) : Payload :=
  { title := mergeField body.title base.title
    description := mergeField body.description base.description
    category := mergeField body.category base.category
    discountPercent := mergeField body.discountPercent base.discountPercent
    merchant := mergeField body.merchant base.merchant
    createdBy := mergeField body.createdBy base.createdBy
    ccreatedBy := mergeField body.ccreatedBy base.ccreatedBy }

/-- The write `findByIdAndUpdate(id, {$set: value})`: `$set` writes exactly the keys
present in the validated value (`title`, `category`, `discountPercent` always;
`description`/`merchant` only when the merged document carried them); all other
stored fields are untouched. -/
def applyUpdate (doc : StoredPerk) (v : PerkValue) : StoredPerk :=
  { doc with
    title := v.title
    category := v.category
    discountPercent := v.discountPercent
    description := match v.description with | some d => some d | none => doc.description
    merchant := match v.merchant with | some m => some m | none => doc.merchant }

/-- Handler `updatePerk`: load (404 if absent, cast error to `next`), merge existing
with the body, validate in update mode (`abortEarly:false, stripUnknown:true`),
then `$set` the validated value, re-reading the document (404 if it vanished). -/
def updatePerk (store : List StoredPerk) (pid : String) (body : Payload) : HResp :=
  match findById store pid with
  | .error e => .nextErr e
  | .ok none => .statusMsg 404 "Perk not found"
  | .ok (some existing) =>
      match perkSchemaValidate updateOpts (mergePayload (toPayload existing) body) with
      | .error errs => .badRequest errs
      | .ok v =>
          match store.find? (fun q => q.id == pid) with
          | none => .statusMsg 404 "Perk not found"
          | some doc => .okPerk (applyUpdate doc v)

/-- Handler `getPerk`: `findById`, 404 when missing; a cast error is caught and handed
to `next`. -/
def getPerk (store : List StoredPerk) (pid : String) : HResp :=
  match findById store pid with
  | .error e => .nextErr e
  | .ok none => .statusMsg 404 "Perk not found"
  | .ok (some p) => .okPerk p

/-- Handler `deletePerk`: `findByIdAndDelete` (same cast/lookup semantics as
`findById`), 404 when missing, otherwise `{ok: true}`. -/
def deletePerk (store : List StoredPerk) (pid : String) : HResp :=
  match findById store pid with
  | .error e => .nextErr e
  | .ok none => .statusMsg 404 "Perk not found"
  | .ok (some _) => .okDelete

/-- The `createdBy` field of a perk in the public-list response after creator
resolution: left at its original (falsy) value, replaced by a projected user
record, or explicitly set to `null`. -/
inductive CBOut where
  | orig (v : Option String)
  | userRec (name : String) (email : Option String)
  | nullMarker
deriving DecidableEq, Repr

/-- A perk as serialized by the public list: the stored fields with `createdBy`
post-processed. -/
structure RespPerk where
  id : String
  title : String
  description : Option String
  category : String
  discountPercent : Int
  merchant : Option String
  createdBy : CBOut
  createdAt : Nat
deriving DecidableEq, Repr

/-- The non-empty `createdBy` string of a perk (the collection loop skips falsy
values: absent and `""`). -/
def cbString (p : StoredPerk) : Option String :=
  match p.createdBy with
  | none => none
  | some s => if s == "" then none else some s

/-- JS `Set` iteration order: first occurrence, duplicates dropped. -/
def dedupKeys (seen : List String) : List String → List String
  | [] => []
  | s :: rest =>
      if seen.contains s then dedupKeys seen rest
      else s :: dedupKeys (s :: seen) rest

/-- The `idSet` of `createdBy` values that are syntactically valid ObjectIds. -/
def idKeys (perks : List StoredPerk) : List String :=
  dedupKeys [] ((perks.filterMap cbString).filter isValidObjectId)

/-- The `stringKeys` set: non-empty `createdBy` values that are not valid
ObjectIds (legacy free-text keys). -/
def strKeys (perks : List StoredPerk) : List String :=
  dedupKeys [] ((perks.filterMap cbString).filter (fun s => !isValidObjectId s))

/-- The batch fetch `User.find({ _id: { $in: [...idSet] } }).select('name email')`. -/
def usersById (users : List User) (perks : List StoredPerk) : List User :=
  users.filter (fun u => (idKeys perks).contains u.uid)

/-- One legacy-key lookup: `findOne({email: key.toLowerCase()})` when the key
contains `@`, else `findOne({name: key})`; `findOne` returns the first match. -/
def lookupStringKey (users : List User) (key : String) : Option User :=
  if strHasChar key '@' then users.find? (fun u => u.email == some (lowerStr key))
  else users.find? (fun u => u.name == key)

/-- The list `usersByString`: the successful legacy-key lookups, in key order. -/
def usersByString (users : List User) (perks : List StoredPerk) : List User :=
  (strKeys perks).filterMap (lookupStringKey users)

/-- JS `Map.get` over an entry list built with `new Map(entries)`: the last
entry for a key wins. -/
def mapGet (entries : List (String × User)) (k : String) : Option User :=
  (entries.reverse.find? (fun e => e.1 == k)).map (fun e => e.2)

/-- The key under which `userMapByKey` files a resolved user:
`u.email?.toLowerCase() || u.name` — the user's lower-cased email when it is a
non-empty string, the user's name otherwise.  (Note this is the user's own
email, not the legacy key that found the user.) -/
def userMapKey (u : User) : String :=
  match u.email with
  | some e => if e == "" then u.name else lowerStr e
  | none => u.name

def userMapById (users : List User) (perks : List StoredPerk) : List (String × User) :=
  (usersById users perks).map (fun u => (u.uid, u))

def userMapByKey (users : List User) (perks : List StoredPerk) : List (String × User) :=
  (usersByString users perks).map (fun u => (userMapKey u, u))

/-- The replacement loop body for one perk's `createdBy` value: falsy values
are skipped; otherwise try the id map, then the key map at the raw key and at
its lower-cased form, finally `null`. -/
def resolveCB (byId byKey : List (String × User)) : Option String → CBOut
  | none => .orig none
  | some s =>
      if s == "" then .orig (some "")
      else
        match mapGet byId s with
        | some u => .userRec u.name u.email
        | none =>
            match mapGet byKey s with
            | some u => .userRec u.name u.email
            | none =>
                match mapGet byKey (lowerStr s) with
                | some u => .userRec u.name u.email
                | none => .nullMarker

/-- The whole creator-resolution pass of `getAllPerksPublic` over a result
set. -/
def resolvePerks (users : List User) (perks : List StoredPerk) : List RespPerk :=
  let byId := userMapById users perks
  let byKey := userMapByKey users perks
  perks.map (fun p =>
    { id := p.id, title := p.title, description := p.description,
      category := p.category, discountPercent := p.discountPercent,
      merchant := p.merchant, createdAt := p.createdAt,
      createdBy := resolveCB byId byKey p.createdBy })

/-- Case-insensitive literal substring containment over character lists. -/
def subAt : List Char → List Char → Bool
  | [], _ => true
  | _ :: _, [] => false
  | a :: pat, b :: hay => a == b && subAt pat hay

def hasSub (pat : List Char) : List Char → Bool
  | [] => pat.isEmpty
  | b :: hay => subAt pat (b :: hay) || hasSub pat hay

/-- Modelled from the spec: the `$regex`/`$options:'i'` title search is a
case-insensitive substring match (the search strings the spec exercises are
regex-literal). -/
def containsCI (hay pat : String) : Bool :=
  hasSub (lowerStr pat).toList (lowerStr hay).toList

/-- The query object `getAllPerksPublic` builds: a title constraint when
`search` is truthy with non-blank trim, a merchant constraint when `merchant`
is truthy with non-blank trim. -/
def publicQueryMatches (search merchant : Option String) (p : StoredPerk) : Bool :=
  (match search with
   | some s => if trimStr s == "" then true else containsCI p.title (trimStr s)
   | none => true) &&
  (match merchant with
   | some m => if trimStr m == "" then true else p.merchant == some (trimStr m)
   | none => true)

/-- Handler `getAllPerksPublic`: filter, sort newest-first, then resolve creators.
(The `perks.length > 0` guard is the identity on the empty list.)  Every step
is total: no input makes the handler throw. -/
def getAllPerksPublic (users : List User) (store : List StoredPerk)
    (search merchant : Option String) : List RespPerk :=
  resolvePerks users (sortByCreatedAtDesc (store.filter (publicQueryMatches search merchant)))

/-! Concrete documents and payloads used to evaluate the model at specific
inputs. -/

/-- A perk whose `createdBy` resolves to no user at all. -/
def w1Perk : StoredPerk :=
  { id := "aaaaaaaaaaaaaaaaaaaaaaa1", title := "Tea Time", createdBy := some "ghost",
    createdAt := 1 }

/-- A user with both a name and an email address. -/
def c2User : User :=
  { uid := "507f1f77bcf86cd799439011", name := "Alice", email := some "alice@example.com" }

/-- A perk whose `createdBy` is the legacy name key of `c2User`. -/
def c2Perk : StoredPerk :=
  { id := "aaaaaaaaaaaaaaaaaaaaaaa2", title := "Coffee Club", createdBy := some "Alice",
    createdAt := 5 }

/-- A payload with a well-formed title and an out-of-range discount. -/
def c3Payload : Payload :=
  { title := some (.jstr "Gym"), discountPercent := some (.jnum 150) }

/-- A payload with a well-formed title and no discount key. -/
def c3Default : Payload := { title := some (.jstr "Gym") }

/-- An existing stored perk with an owner. -/
def c4Perk : StoredPerk :=
  { id := "507f191e810c19729de860ea", title := "Spa Day", category := "other",
    discountPercent := 10, merchant := some "Acme", createdBy := some "owner-1",
    createdAt := 3 }

/-- An update body that tries to overwrite the owner field. -/
def c4Body : Payload := { createdBy := some (.jstr "attacker") }

/-- A creation body that tries to set the owner field. -/
def c4CreateBody : Payload :=
  { title := some (.jstr "Spa Day"), createdBy := some (.jstr "attacker") }

/-- A fully valid creation payload. -/
def c5Body : Payload :=
  { title := some (.jstr "Gym Pass"), category := some (.jstr "fitness"),
    discountPercent := some (.jnum 20) }

/-- An existing stored perk with every optional field populated. -/
def c6Perk : StoredPerk :=
  { id := "507f191e810c19729de860eb", title := "Spa Day", description := some "relax",
    category := "food", discountPercent := 10, merchant := some "Acme",
    createdBy := some "owner-1", createdAt := 3 }

/-- The partial update payload carrying only a new discount. -/
def c6Body : Payload := { discountPercent := some (.jnum 50) }

/-- A payload violating two rules at once (short title, discount 200). -/
def c7Bad : Payload :=
  { title := some (.jstr "x"), discountPercent := some (.jnum 200) }

/-- A stored perk whose title is the empty string. -/
def c8Perk : StoredPerk :=
  { id := "cccccccccccccccccccccccc", title := "", createdAt := 4 }

/-- Two perks sharing a title, the older one listed first in the store. -/
def c8wPerkA : StoredPerk :=
  { id := "ccccccccccccccccccccccc1", title := "Spa", createdAt := 1 }

def c8wPerkB : StoredPerk :=
  { id := "ccccccccccccccccccccccc2", title := "Spa", createdAt := 9 }

/-- A minimal valid creation payload. -/
def c9Body : Payload := { title := some (.jstr "Gym Pass") }

/-- A store insert that fails with a duplicate-key violation. -/
def c9DupStore : PerkDoc → Except StoreErr StoredPerk :=
  fun _ => .error (.dbErr (some 11000))

/-- A store insert that fails with some other database error. -/
def c9OtherStore : PerkDoc → Except StoreErr StoredPerk :=
  fun _ => .error (.dbErr (some 1))

/-- A stored perk for exercising the id-cast paths. -/
def c10Perk : StoredPerk :=
  { id := "507f191e810c19729de860ec", title := "Spa", createdAt := 1 }

/-! Helper lemmas shared by the claim theorems. -/

theorem collect_nil_elim {opts : JoiOpts} {p : Payload}
    (h : collectErrors opts p = []) :
    checkTitle p = none ∧ checkDescription p = none ∧ checkCategory p = none ∧
    checkDiscount p = none ∧ checkMerchant p = none ∧ checkCcreatedBy p = none ∧
    checkUnknown opts p = none := by
  unfold collectErrors at h
  refine ⟨?_, ?_, ?_, ?_, ?_, ?_, ?_⟩ <;>
    [cases h1 : checkTitle p; cases h1 : checkDescription p; cases h1 : checkCategory p;
     cases h1 : checkDiscount p; cases h1 : checkMerchant p; cases h1 : checkCcreatedBy p;
     cases h1 : checkUnknown opts p] <;> simp [h1] at h ⊢

theorem validate_ok_elim {opts : JoiOpts} {p : Payload} {v : PerkValue}
    (h : perkSchemaValidate opts p = .ok v) :
    collectErrors opts p = [] ∧ v = mkValue p := by
  unfold perkSchemaValidate at h
  cases hce : collectErrors opts p with
  | nil => rw [hce] at h; exact ⟨rfl, (Except.ok.injEq _ _).mp h |>.symm⟩
  | cons e rest => rw [hce] at h; simp at h

theorem validate_error_elim {opts : JoiOpts} {p : Payload} {errs : List FieldError}
    (h : perkSchemaValidate opts p = .error errs) :
    collectErrors opts p ≠ [] ∧
      errs = (if opts.abortEarly then (collectErrors opts p).take 1
              else collectErrors opts p) := by
  unfold perkSchemaValidate at h
  cases hce : collectErrors opts p with
  | nil => rw [hce] at h; simp at h
  | cons e rest =>
      rw [hce] at h
      refine ⟨by simp, ?_⟩
      have := (Except.error.injEq _ _).mp h
      cases hae : opts.abortEarly <;> simp [hae] at this ⊢ <;> exact this.symm

theorem insertDesc_perm (p : StoredPerk) (l : List StoredPerk) :
    (insertDesc p l).Perm (p :: l) := by
  induction l with
  | nil => simp [insertDesc]
  | cons q qs ih =>
      unfold insertDesc
      by_cases hlt : q.createdAt < p.createdAt
      · simp [hlt]
      · simp only [hlt, if_false]
        exact (ih.cons q).trans (List.Perm.swap p q qs)

theorem sortByCreatedAtDesc_perm (l : List StoredPerk) :
    (sortByCreatedAtDesc l).Perm l := by
  induction l with
  | nil => simp [sortByCreatedAtDesc]
  | cons x xs ih =>
      unfold sortByCreatedAtDesc at ih ⊢
      exact (insertDesc_perm x (xs.foldr insertDesc [])).trans (ih.cons x)

theorem insertDesc_pairwise (p : StoredPerk) {l : List StoredPerk}
    (h : l.Pairwise (fun a b => b.createdAt ≤ a.createdAt)) :
    (insertDesc p l).Pairwise (fun a b => b.createdAt ≤ a.createdAt) := by
  induction l with
  | nil => simp [insertDesc]
  | cons q qs ih =>
      rw [List.pairwise_cons] at h
      obtain ⟨hq, hqs⟩ := h
      unfold insertDesc
      by_cases hlt : q.createdAt < p.createdAt
      · simp only [hlt, if_true]
        rw [List.pairwise_cons]
        refine ⟨?_, List.pairwise_cons.mpr ⟨hq, hqs⟩⟩
        intro x hx
        rcases List.mem_cons.mp hx with rfl | hx
        · exact le_of_lt hlt
        · exact le_trans (hq x hx) (le_of_lt hlt)
      · simp only [hlt, if_false]
        rw [List.pairwise_cons]
        refine ⟨?_, ih hqs⟩
        intro x hx
        have hx' := (insertDesc_perm p qs).mem_iff.mp hx
        rcases List.mem_cons.mp hx' with rfl | hmem
        · exact le_of_not_lt hlt
        · exact hq x hmem

theorem sortByCreatedAtDesc_pairwise (l : List StoredPerk) :
    (sortByCreatedAtDesc l).Pairwise (fun a b => b.createdAt ≤ a.createdAt) := by
  induction l with
  | nil => simp [sortByCreatedAtDesc]
  | cons x xs ih =>
      unfold sortByCreatedAtDesc at ih ⊢
      exact insertDesc_pairwise x ih

theorem resolveCB_shape (byId byKey : List (String × User)) (v : Option String) :
    (∃ n e, resolveCB byId byKey v = .userRec n e) ∨
      resolveCB byId byKey v = .nullMarker ∨
      resolveCB byId byKey v = .orig none ∨
      resolveCB byId byKey v = .orig (some "") := by
  cases v with
  | none => right; right; left; rfl
  | some s =>
      unfold resolveCB
      by_cases hs : s == ""
      · simp [hs]
      · simp only [hs, if_false]
        cases mapGet byId s with
        | some u => exact Or.inl ⟨u.name, u.email, rfl⟩
        | none =>
            cases mapGet byKey s with
            | some u => exact Or.inl ⟨u.name, u.email, rfl⟩
            | none =>
                cases mapGet byKey (lowerStr s) with
                | some u => exact Or.inl ⟨u.name, u.email, rfl⟩
                | none => right; left; rfl

/-! The claim theorems. -/

/-- C1: in the public-list response every perk's `createdBy` is either a
resolved user record or an explicit empty/absent marker — a resolved
`{name, email}` record, an explicit `null`, or the original falsy value
(absent or the empty string); a non-empty raw reference is never left in the
response, and resolution is a total function, so an unresolvable value never
fails the request. -/
theorem C1_public_creator_resolution_total
    (users : List User) (store : List StoredPerk) (search merchant : Option String)
    (r : RespPerk) (hr : r ∈ getAllPerksPublic users store search merchant) :
    (∃ n e, r.createdBy = CBOut.userRec n e) ∨ r.createdBy = CBOut.nullMarker ∨
      r.createdBy = CBOut.orig none ∨ r.createdBy = CBOut.orig (some "") := by
  unfold getAllPerksPublic resolvePerks at hr
  rw [List.mem_map] at hr
  obtain ⟨p, _, rfl⟩ := hr
  exact resolveCB_shape _ _ p.createdBy

/-- C1 witness: the shape property evaluated on a one-perk store whose
creator reference resolves to nobody. -/
theorem C1_public_creator_resolution_total_witness :
    (∃ n e,
        (({ id := "aaaaaaaaaaaaaaaaaaaaaaa1", title := "Tea Time", description := none,
            category := "other", discountPercent := 0, merchant := none,
            createdBy := CBOut.nullMarker, createdAt := 1 } : RespPerk)).createdBy =
          CBOut.userRec n e) ∨
      (({ id := "aaaaaaaaaaaaaaaaaaaaaaa1", title := "Tea Time", description := none,
          category := "other", discountPercent := 0, merchant := none,
          createdBy := CBOut.nullMarker, createdAt := 1 } : RespPerk)).createdBy =
        CBOut.nullMarker ∨
      (({ id := "aaaaaaaaaaaaaaaaaaaaaaa1", title := "Tea Time", description := none,
          category := "other", discountPercent := 0, merchant := none,
          createdBy := CBOut.nullMarker, createdAt := 1 } : RespPerk)).createdBy =
        CBOut.orig none ∨
      (({ id := "aaaaaaaaaaaaaaaaaaaaaaa1", title := "Tea Time", description := none,
          category := "other", discountPercent := 0, merchant := none,
          createdBy := CBOut.nullMarker, createdAt := 1 } : RespPerk)).createdBy =
        CBOut.orig (some "") :=
  C1_public_creator_resolution_total [] [w1Perk] none none _ (by decide)

/-- C2: the claim fails on the code.  For the perk whose `createdBy` is the
non-ObjectId, `@`-free string "Alice" and the user whose name is exactly
"Alice", the legacy-key lookup does find the user, but the replacement map is
keyed by the user's lower-cased *email*, so the public list sets the perk's
`createdBy` to `null` instead of the user's record. -/
theorem C2_name_key_resolution_dropped :
    isValidObjectId "Alice" = false ∧
    strHasChar "Alice" '@' = false ∧
    c2User.name = "Alice" ∧
    usersByString [c2User] [c2Perk] = [c2User] ∧
    (getAllPerksPublic [c2User] [c2Perk] none none).map (fun r => r.createdBy) =
      [CBOut.nullMarker] := by decide

/-- C3 counterexample: a payload with `discountPercent = 150` fails validation
with a `discountPercent` error in both modes; the validator never produces a
clamped value. -/
theorem C3_counterexample_150_rejected :
    perkSchemaValidate createOpts c3Payload = .error [FieldError.discountPercent] ∧
    perkSchemaValidate updateOpts c3Payload = .error [FieldError.discountPercent] := by
  decide

/-- C3 as amended: a numeric `discountPercent` outside `[0,100]` makes
validation fail (creation mode can never succeed on such a payload, and update
mode reports a `discountPercent` violation) rather than being clamped; an
absent `discountPercent` defaults to `0`. -/
theorem C3_discount_rejected_not_clamped (p q : Payload) (n : Int) (v : PerkValue) :
    (p.discountPercent = some (.jnum n) → (n < 0 ∨ 100 < n) →
      (∀ w, perkSchemaValidate createOpts p ≠ .ok w) ∧
      (∀ errs, perkSchemaValidate updateOpts p = .error errs →
        FieldError.discountPercent ∈ errs)) ∧
    (q.discountPercent = none → perkSchemaValidate createOpts q = .ok v →
      v.discountPercent = 0) := by
  constructor
  · intro hdp hrange
    have hcd : checkDiscount p = some .discountPercent := by
      rcases hrange with h | h <;> simp [checkDiscount, numVal, hdp, h]
    constructor
    · intro w hok
      obtain ⟨hnil, _⟩ := validate_ok_elim hok
      have hnone := (collect_nil_elim hnil).2.2.2.1
      rw [hcd] at hnone
      exact Option.noConfusion hnone
    · intro errs herr
      obtain ⟨hne, heq⟩ := validate_error_elim herr
      rw [heq]
      simp only [updateOpts, if_false, Bool.false_eq_true]
      unfold collectErrors
      simp [hcd]
  · intro hq hok
    obtain ⟨_, hv⟩ := validate_ok_elim hok
    subst hv
    simp [mkValue, hq]

/-- C3 witness: the amended claim evaluated at `discountPercent = 150` and at
a payload with no discount key. -/
theorem C3_discount_rejected_not_clamped_witness :
    perkSchemaValidate createOpts c3Payload ≠ .ok (mkValue c3Payload) ∧
    FieldError.discountPercent ∈ [FieldError.discountPercent] ∧
    (mkValue c3Default).discountPercent = 0 := by
  have h := C3_discount_rejected_not_clamped c3Payload c3Default 150 (mkValue c3Default)
  refine ⟨(h.1 (by decide) (by decide)).1 _, ?_, h.2 (by decide) (by decide)⟩
  exact (h.1 (by decide) (by decide)).2 [FieldError.discountPercent] (by decide)

/-- C4: the claim fails on the code.  The schema forbids the misspelt key
`ccreatedBy`, not `createdBy`; in creation mode a `createdBy` payload is still
rejected (unknown key), but in update mode `stripUnknown` silently drops the
attempted owner overwrite: the update below succeeds with a 200 and the stored
owner unchanged, where the claim requires a 400 validation error. -/
theorem C4_owner_field_silently_stripped_on_update :
    updatePerk [c4Perk] "507f191e810c19729de860ea" c4Body = .okPerk c4Perk ∧
    perkSchemaValidate updateOpts (mergePayload (toPayload c4Perk) c4Body) =
      .ok (mkValue (mergePayload (toPayload c4Perk) c4Body)) ∧
    perkSchemaValidate createOpts c4CreateBody = .error [FieldError.createdBy] := by
  decide

/-- C5: every creation payload that passes validation yields a stored document
whose category is one of the five enum values ("other" by default), whose
discount lies in [0,100], and whose `createdBy` is the authenticated caller;
moreover no payload carrying an owner field can pass creation validation at
all. -/
theorem C5_create_stores_validated_fields (caller : String) (body : Payload)
    (v : PerkValue) (h : perkSchemaValidate createOpts body = .ok v) :
    v.category ∈ (["food", "tech", "travel", "fitness", "other"] : List String) ∧
    0 ≤ v.discountPercent ∧ v.discountPercent ≤ 100 ∧
    (mkDoc caller v).createdBy = caller ∧ body.createdBy = none := by
  obtain ⟨hnil, hv⟩ := validate_ok_elim h
  obtain ⟨ht, hd, hc, hdp, hm, hcc, hu⟩ := collect_nil_elim hnil
  subst hv
  have hcat : (mkValue body).category ∈ (["food", "tech", "travel", "fitness", "other"] : List String) := by
    unfold checkCategory at hc
    cases hcv : body.category with
    | none => simp [mkValue, hcv]
    | some jv =>
        cases jv with
        | jnum m => rw [hcv] at hc; simp at hc
        | jstr s =>
            rw [hcv] at hc
            by_cases hin : (s == "food" || s == "tech" || s == "travel" ||
                s == "fitness" || s == "other") = true
            · simp only [mkValue, hcv]
              simp only [Bool.or_eq_true, beq_iff_eq] at hin
              rcases hin with ((((rfl | rfl) | rfl) | rfl) | rfl) <;> simp
            · simp [hin] at hc
  have hdpb : 0 ≤ (mkValue body).discountPercent ∧ (mkValue body).discountPercent ≤ 100 := by
    unfold checkDiscount at hdp
    cases hdv : body.discountPercent with
    | none => simp [mkValue, hdv]
    | some jv =>
        rw [hdv] at hdp
        cases hn : numVal jv with
        | none => simp [hn] at hdp
        | some m =>
            by_cases h1 : (m < 0 || 100 < m) = true
            · simp [hn, h1] at hdp
            · simp only [Bool.or_eq_true, decide_eq_true_eq] at h1
              push_neg at h1
              simp [mkValue, hdv, hn]
              omega
  have hcb : body.createdBy = none := by
    unfold checkUnknown at hu
    simp only [createOpts, Bool.not_false, Bool.true_and] at hu
    cases hcbv : body.createdBy with
    | none => rfl
    | some x => rw [hcbv] at hu; simp at hu
  exact ⟨hcat, hdpb.1, hdpb.2, rfl, hcb⟩

/-- C5 witness: the creation guarantees evaluated on a concrete valid
payload. -/
theorem C5_create_stores_validated_fields_witness :
    (mkValue c5Body).category ∈ (["food", "tech", "travel", "fitness", "other"] : List String) ∧
    0 ≤ (mkValue c5Body).discountPercent ∧ (mkValue c5Body).discountPercent ≤ 100 ∧
    (mkDoc "user-1" (mkValue c5Body)).createdBy = "user-1" ∧ c5Body.createdBy = none :=
  C5_create_stores_validated_fields "user-1" c5Body (mkValue c5Body) (by decide)

/-- C6: a successful partial update changes only the fields carried by the
validated payload.  Fields absent from the request body keep their stored
values, and the fields the `$set` never touches (`_id`, `createdBy`,
`createdAt`) are always unchanged; updating with only `{discountPercent: 50}`
produces exactly the stored document with its discount replaced by 50. -/
theorem C6_update_frame (store : List StoredPerk) (pid : String) (body : Payload)
    (existing doc : StoredPerk)
    (hfind : store.find? (fun q => q.id == pid) = some existing)
    (hupd : updatePerk store pid body = .okPerk doc) :
    doc.id = existing.id ∧ doc.createdBy = existing.createdBy ∧
    doc.createdAt = existing.createdAt ∧
    (body.title = none → doc.title = existing.title) ∧
    (body.description = none → doc.description = existing.description) ∧
    (body.category = none → doc.category = existing.category) ∧
    (body.discountPercent = none → doc.discountPercent = existing.discountPercent) ∧
    (body.merchant = none → doc.merchant = existing.merchant) ∧
    (body = { discountPercent := some (.jnum 50) } →
      doc = { existing with discountPercent := 50 }) := by
  unfold updatePerk findById at hupd
  by_cases hvalid : isValidObjectId pid = true
  swap
  · rw [if_neg hvalid] at hupd; simp at hupd
  rw [if_pos hvalid, hfind] at hupd
  dsimp only at hupd
  cases hval : perkSchemaValidate updateOpts (mergePayload (toPayload existing) body) with
  | error errs => rw [hval] at hupd; simp at hupd
  | ok v =>
      rw [hval] at hupd
      dsimp only at hupd
      simp only [HResp.okPerk.injEq] at hupd
      subst hupd
      obtain ⟨_, hv⟩ := validate_ok_elim hval
      subst hv
      refine ⟨rfl, rfl, rfl, ?_, ?_, ?_, ?_, ?_, ?_⟩
      · intro hb
        simp [applyUpdate, mkValue, mergePayload, mergeField, toPayload, hb]
      · intro hb
        cases hex : existing.description <;>
          simp [applyUpdate, mkValue, mergePayload, mergeField, toPayload, hb, hex]
      · intro hb
        simp [applyUpdate, mkValue, mergePayload, mergeField, toPayload, hb]
      · intro hb
        simp [applyUpdate, mkValue, mergePayload, mergeField, toPayload, hb, numVal]
      · intro hb
        cases hex : existing.merchant <;>
          simp [applyUpdate, mkValue, mergePayload, mergeField, toPayload, hb, hex]
      · intro hb
        subst hb
        cases hex : existing.description <;> cases hem : existing.merchant <;>
          simp [applyUpdate, mkValue, mergePayload, mergeField, toPayload, numVal, hex, hem]

/-- C6 witness: updating the concrete perk with only `{discountPercent: 50}`
keeps the owner and produces exactly the stored document with discount 50. -/
theorem C6_update_frame_witness :
    ({ c6Perk with discountPercent := 50 } : StoredPerk).createdBy = c6Perk.createdBy ∧
    ({ c6Perk with discountPercent := 50 } : StoredPerk).title = c6Perk.title ∧
    ({ c6Perk with discountPercent := 50 } : StoredPerk) =
      { c6Perk with discountPercent := 50 } := by
  have h := C6_update_frame [c6Perk] "507f191e810c19729de860eb" c6Body c6Perk
    { c6Perk with discountPercent := 50 } (by decide) (by decide)
  exact ⟨h.2.1, h.2.2.2.1 (by decide), h.2.2.2.2.2.2.2.2 (by decide)⟩

/-- C7: update-mode validation reports every violated field (the error list is
the full violation list), while creation-mode validation fails fast: whenever
it reports an error the list has exactly one entry, the first violation. -/
theorem C7_error_reporting_modes (p : Payload) :
    (∀ errs, perkSchemaValidate updateOpts p = .error errs →
      errs = collectErrors updateOpts p) ∧
    (∀ errs, perkSchemaValidate createOpts p = .error errs →
      errs = (collectErrors createOpts p).take 1 ∧ errs.length = 1) := by
  constructor
  · intro errs h
    have h2 := (validate_error_elim h).2
    simpa [updateOpts] using h2
  · intro errs h
    obtain ⟨hne, heq⟩ := validate_error_elim h
    refine ⟨by simpa [createOpts] using heq, ?_⟩
    cases hce : collectErrors createOpts p with
    | nil => exact absurd hce hne
    | cons e rest => rw [heq, hce]; simp [createOpts]

/-- C7 witness: a payload violating both the title and the discount rules is
reported with both fields in update mode and with only the first in creation
mode. -/
theorem C7_error_reporting_modes_witness :
    ([FieldError.title, FieldError.discountPercent] : List FieldError) =
      collectErrors updateOpts c7Bad ∧
    (([FieldError.title] : List FieldError) = (collectErrors createOpts c7Bad).take 1 ∧
      ([FieldError.title] : List FieldError).length = 1) := by
  have h := C7_error_reporting_modes c7Bad
  exact ⟨h.1 _ (by decide), h.2 _ (by decide)⟩

/-- C8 counterexample: with the `title` query parameter *present* but equal to
the empty string, and a stored perk whose title is exactly the empty string,
the handler answers 400 instead of returning that perk — JS truthiness makes
the guard treat an empty present parameter like an absent one. -/
theorem C8_counterexample_empty_title :
    filterPerks [c8Perk] (some "") = .statusMsg 400 "Title query parameter is required" ∧
    filterPerks [c8Perk] (some "") ≠
      .okPerks (sortByCreatedAtDesc (List.filter (fun p => p.title == "") [c8Perk])) := by
  decide

/-- C8 as amended: filter-by-title fails with 400 when the title parameter is
absent *or empty*; for any non-empty title it returns exactly the perks whose
title equals the given string literally (every returned perk has that title,
the result is a permutation of the store's exact matches), sorted descending
by creation time. -/
theorem C8_filter_exact_title_sorted (store : List StoredPerk) (t : String)
    (l : List StoredPerk) :
    filterPerks store none = .statusMsg 400 "Title query parameter is required" ∧
    filterPerks store (some "") = .statusMsg 400 "Title query parameter is required" ∧
    (t ≠ "" → filterPerks store (some t) = .okPerks l →
      (∀ q ∈ l, q.title = t) ∧
      l.Pairwise (fun a b => b.createdAt ≤ a.createdAt) ∧
      l.Perm (store.filter (fun p => p.title == t))) := by
  refine ⟨rfl, by simp [filterPerks], ?_⟩
  intro hne hfp
  unfold filterPerks at hfp
  dsimp only at hfp
  have ht : (t == "") = false := by simpa using hne
  rw [ht] at hfp
  simp only [Bool.false_eq_true, if_false, HResp.okPerks.injEq] at hfp
  subst hfp
  refine ⟨?_, sortByCreatedAtDesc_pairwise _, sortByCreatedAtDesc_perm _⟩
  intro q hq
  have hmem := (sortByCreatedAtDesc_perm (store.filter (fun p => p.title == t))).mem_iff.mp hq
  exact by simpa using (List.mem_filter.mp hmem).2

/-- C8 witness: the amended behaviour evaluated on a two-perk store sharing
the title "Spa", stored oldest-first. -/
theorem C8_filter_exact_title_sorted_witness :
    c8wPerkB.title = "Spa" ∧
    ([c8wPerkB, c8wPerkA] : List StoredPerk).Pairwise
      (fun a b => b.createdAt ≤ a.createdAt) ∧
    ([c8wPerkB, c8wPerkA] : List StoredPerk).Perm
      (List.filter (fun p => p.title == "Spa") [c8wPerkA, c8wPerkB]) := by
  have h := C8_filter_exact_title_sorted [c8wPerkA, c8wPerkB] "Spa" [c8wPerkB, c8wPerkA]
  have h3 := h.2.2 (by decide) (by decide)
  exact ⟨h3.1 c8wPerkB (by decide), h3.2.1, h3.2.2⟩

/-- C9: when the abstracted store insert fails, `createPerk` answers 409
exactly when the error carries `code === 11000`, and hands every other store
error to the generic error handler via `next`. -/
theorem C9_duplicate_key_conflict (caller : String) (body : Payload) (v : PerkValue)
    (insert : PerkDoc → Except StoreErr StoredPerk) (e : StoreErr)
    (hval : perkSchemaValidate createOpts body = .ok v)
    (hcr : insert (mkDoc caller v) = .error e) :
    createPerk caller body insert =
      (if errCode e == some 11000 then
        .statusMsg 409 "Duplicate perk for this merchant"
       else .nextErr e) := by
  unfold createPerk
  rw [hval]
  dsimp only
  rw [hcr]

/-- C9 witness: a duplicate-key failure yields the 409 conflict message and a
different database error is passed through to `next`. -/
theorem C9_duplicate_key_conflict_witness :
    createPerk "user-1" c9Body c9DupStore =
      .statusMsg 409 "Duplicate perk for this merchant" ∧
    createPerk "user-1" c9Body c9OtherStore = .nextErr (.dbErr (some 1)) := by
  have h1 := C9_duplicate_key_conflict "user-1" c9Body (mkValue c9Body) c9DupStore
    (.dbErr (some 11000)) (by decide) rfl
  have h2 := C9_duplicate_key_conflict "user-1" c9Body (mkValue c9Body) c9OtherStore
    (.dbErr (some 1)) (by decide) rfl
  exact ⟨h1.trans (by decide), h2.trans (by decide)⟩

/-- C10: on an id that is not a syntactically valid store identifier, get,
update and delete all forward the driver's cast error to the generic error
handler via `next`, and none of them produces a 404 response. -/
theorem C10_invalid_id_cast_error (store : List StoredPerk) (pid : String)
    (body : Payload) (h : isValidObjectId pid = false) :
    getPerk store pid = .nextErr .castError ∧
    updatePerk store pid body = .nextErr .castError ∧
    deletePerk store pid = .nextErr .castError ∧
    (∀ m, getPerk store pid ≠ .statusMsg 404 m) ∧
    (∀ m, updatePerk store pid body ≠ .statusMsg 404 m) ∧
    (∀ m, deletePerk store pid ≠ .statusMsg 404 m) := by
  simp [getPerk, updatePerk, deletePerk, findById, h]

/-- C10 witness: the three handlers evaluated at the malformed id
"not-an-id". -/
theorem C10_invalid_id_cast_error_witness :
    getPerk [c10Perk] "not-an-id" = .nextErr .castError ∧
    updatePerk [c10Perk] "not-an-id" {} = .nextErr .castError ∧
    deletePerk [c10Perk] "not-an-id" = .nextErr .castError ∧
    getPerk [c10Perk] "not-an-id" ≠ .statusMsg 404 "Perk not found" := by
  have h := C10_invalid_id_cast_error [c10Perk] "not-an-id" {} (by decide)
  exact ⟨h.1, h.2.1, h.2.2.1, h.2.2.2.1 "Perk not found"⟩

end PerkController
